import Mathlib

/-!
# KakaoStickerBot: the `create` command handler

A shallow embedding of `src/main.go`.  The handler is sequential glue over
external calls, so it is embedded as a pure function from an environment
(`World`, the answers of the external calls) to the list of external calls it
issues (`Effect`) together with the way the run ends (`Outcome`).

Library functions the handler calls are embedded by their documented
behaviour:

* `regexp.MatchString` : unanchored search for a match of the pattern;
  `.` matches every character except the line feed; `x+` is one or more `x`.
* `strings.ReplaceAll` : every non-overlapping occurrence, leftmost first.
* `fmt.Sprintf` with `%d` / `%s` : decimal rendering / the string itself.
* `http.Get`, `io.ReadAll`, `json.Unmarshal`, `image.Decode`, the scaling and
  `png.Encode`, and the gotgbot calls are answers of the `World`.
* `http.Get` reports no error for a response with a non-2xx status.
* `b.SendMessage` returns a nil `*gotgbot.Message` when the call failed; the
  helper `EditText` reads the chat and message ids of its receiver, so calling
  it on a nil handle is a nil-pointer dereference (a run-time panic), as is
  indexing an empty slice at 0 (index out of range).
-/

namespace KakaoStickerBot

/-! ## Regular expressions (the fragment used by `urlRegex`) -/

/-- A single-character matcher of a pattern. -/
inductive CharClass where
  | lit (c : Char)
  | anyNotNL
deriving DecidableEq, Repr

/-- Whether a character is matched: a literal matches itself, `.` matches
everything but the line feed. -/
def CharClass.accepts : CharClass → Char → Bool
  | .lit c, x => x == c
  | .anyNotNL, x => x != '\n'

/-- One element of a pattern: a character matcher, possibly under `+`. -/
inductive Atom where
  | one (k : CharClass)
  | plus (k : CharClass)
deriving DecidableEq, Repr

/-- The matcher a pattern character stands for: `.` is the wildcard, every
other character of the pattern of `urlRegex` is a literal. -/
def classOf (c : Char) : CharClass := if c = '.' then .anyNotNL else .lit c

/-- Reading of a pattern text (`regexp.MustCompile`) for patterns built from
literals, `.` and a trailing `+`. -/
def compile : List Char → List Atom
  | [] => []
  | c :: '+' :: rest => .plus (classOf c) :: compile rest
  | c :: rest => .one (classOf c) :: compile rest

/-- Whether some match of the pattern starts at the head of the text. -/
def matchHere : List Atom → List Char → Bool
  | [], _ => true
  | _ :: _, [] => false
  | .one k :: r, x :: xs => k.accepts x && matchHere r xs
  | .plus k :: r, x :: xs =>
      k.accepts x && (matchHere r xs || matchHere (.plus k :: r) xs)

/-- Whether some match of the pattern starts at some position of the text. -/
def matchFrom (re : List Atom) : List Char → Bool
  | [] => matchHere re []
  | x :: xs => matchHere re (x :: xs) || matchFrom re xs

/-- The method `(*Regexp).MatchString`: the text contains a match. -/
def MatchString (re : List Atom) (s : String) : Bool := matchFrom re s.data

/-- The pattern of line 23: `regexp.MustCompile("https://e.kakao.com/t/.+")`. -/
def urlRegex : List Atom := compile "https://e.kakao.com/t/.+".data

/-! ## `strings.ReplaceAll` -/

/-- Worker of `ReplaceAll` for a non-empty `old`: `skip` counts the characters
of the occurrence just replaced that are still to be dropped. -/
def replaceAux (old new : List Char) : Nat → List Char → List Char
  | _, [] => []
  | skip + 1, _ :: cs => replaceAux old new skip cs
  | 0, c :: cs =>
      if old.isPrefixOf (c :: cs) then new ++ replaceAux old new (old.length - 1) cs
      else c :: replaceAux old new 0 cs

/-- The function `strings.ReplaceAll(s, old, new)` for a non-empty `old`. -/
def ReplaceAll (s old new : String) : String :=
  ⟨replaceAux old.data new.data 0 s.data⟩

/-! ## Data model -/

/-- A Go `error` value. -/
structure Error where
  msg : String
deriving DecidableEq, Repr

/-- The struct `Result` of lines 25-28. -/
structure Result where
  title : String
  thumbnailUrls : List String
deriving DecidableEq, Repr

/-- The struct `Meta` of lines 30-32. -/
structure Meta where
  result : Result
deriving DecidableEq, Repr

/-- A decoded raster image (`image.Image`). -/
structure Image where
  width : Nat
  height : Nat
  pixels : List Nat
deriving DecidableEq, Repr

/-- The struct `gotgbot.InputSticker` as the handler fills it. -/
structure InputSticker where
  sticker : String
  emojiList : List String
deriving DecidableEq, Repr

/-- The value behind a non-nil `*gotgbot.Message` handle. -/
structure Message where
  chatId : Int
  messageId : Int
deriving DecidableEq, Repr

/-- An `*http.Response` whose error was nil: the status code and what reading
the body gives (`io.ReadAll`, or the read done by `image.Decode`). -/
structure Response where
  statusCode : Nat
  body : Except Error String

/-- The part of `*gotgbot.Bot` the handler reads. -/
structure Bot where
  username : String
deriving DecidableEq, Repr

/-- The part of `*ext.Context` the handler reads: `ctx.Args()` (the command
followed by its arguments), `ctx.EffectiveChat.Id`, `ctx.EffectiveSender.Id()`. -/
structure Context where
  args : List String
  effectiveChatId : Int
  effectiveSenderId : Int
deriving DecidableEq, Repr

/-- The answers of the external calls of one run.  `httpGet n url` answers the
`n`-th `http.Get` of the run (the metadata request is number 0, the thumbnail
of loop index `i` is number `i + 1`); `sendMessage n chat text` is the handle
returned by the `n`-th `b.SendMessage` (nil, here `none`, when the call
failed); `now` is `time.Now().UnixNano()`. -/
structure World where
  httpGet : Nat → String → Except Error Response
  jsonUnmarshal : String → Except Error Meta
  imageDecode : String → Except Error Image
  scaleEncode : Image → String
  sendMessage : Nat → Int → String → Option Message
  now : Int
  createNewStickerSet : Int → String → String → List InputSticker → String → Option Error
  addStickerToSet : Nat → Int → String → InputSticker → Option Error

/-- An external call issued by the handler. -/
inductive Effect where
  | reply (text : String)
  | sendMessage (chatId : Int) (text : String)
  | httpGet (url : String)
  | editText (msg : Message) (text : String)
  | createNewStickerSet (ownerId : Int) (name title : String)
      (stickers : List InputSticker) (stickerFormat : String)
  | addStickerToSet (ownerId : Int) (name : String) (sticker : InputSticker)
deriving DecidableEq, Repr

/-- A Go run-time panic. -/
inductive Panic where
  | nilDereference
  | indexOutOfRange (index len : Nat)
deriving DecidableEq, Repr

/-- How a run of the handler ends: it returns its `error` result (`none` is
nil), or it panics. -/
inductive Outcome where
  | returned (err : Option Error)
  | panicked (p : Panic)
deriving DecidableEq, Repr

/-! ## Message texts -/

def invalidNotice : String := "유효한 이모티콘 URL이 아닙니다."

def loadingNotice : String := "이모티콘 정보를 불러오는 중입니다."

def packUrlHead : String := "https://e.kakao.com/t/"

def apiUrlHead : String := "https://e.kakao.com/api/v1/items/t/"

/-- Line 109: `"<b>%s</b> 이모티콘을 다운로드 합니다."`. -/
def announceText (title : String) : String :=
  "<b>" ++ title ++ "</b> 이모티콘을 다운로드 합니다."

/-- Lines 115 and 136: `"다운로드 중... <b>(%d/%d)</b>"`. -/
def downloadText (i n : Nat) : String :=
  "다운로드 중... <b>(" ++ toString i ++ "/" ++ toString n ++ ")</b>"

/-- Line 141: `"총 <b>%d</b> 개의 이모티콘을 텔레그램 서버로 업로드합니다."`. -/
def uploadAnnounceText (n : Nat) : String :=
  "총 <b>" ++ toString n ++ "</b> 개의 이모티콘을 텔레그램 서버로 업로드합니다."

/-- Lines 145, 159 and 165: `"업로드 중... <b>(%d/%d)</b>"`. -/
def uploadText (i n : Nat) : String :=
  "업로드 중... <b>(" ++ toString i ++ "/" ++ toString n ++ ")</b>"

/-- Line 149: `fmt.Sprintf("t%d_by_%s", time.Now().UnixNano(), b.Username)`. -/
def stickerSetName (nanos : Int) (username : String) : String :=
  "t" ++ toString nanos ++ "_by_" ++ username

/-- Line 174: `"<b>%s</b> 스티커 생성이 완료되었습니다!\nhttps://t.me/addstickers/%s"`. -/
def completionText (title stickerSet : String) : String :=
  "<b>" ++ title ++ "</b> 스티커 생성이 완료되었습니다!\nhttps://t.me/addstickers/" ++ stickerSet

/-! ## The handler -/

/-- Line 90: `len(ctx.Args()) == 2 && urlRegex.MatchString(ctx.Args()[1])`. -/
def accepted (ctx : Context) : Bool :=
  ctx.args.length == 2 && MatchString urlRegex (ctx.args.getD 1 "")

/-- Line 92: the URL that is fetched for the metadata. -/
def metadataUrl (arg : String) : String := ReplaceAll arg packUrlHead apiUrlHead

/-- Lines 93-108: the GET of the metadata, the read of its body and the JSON
decoding; the first error ends the run.  The status code is not looked at. -/
def fetchMeta (w : World) (url : String) : Except Error Meta :=
  match w.httpGet 0 url with
  | .error err => .error err
  | .ok resp =>
    match resp.body with
    | .error err => .error err
    | .ok body => w.jsonUnmarshal body

/-- Lines 119-135: the fallible part of one turn of the download loop, the GET
of the thumbnail, `image.Decode` on its body, scaling onto the 512x512 canvas
and PNG encoding, wrapped as an `InputSticker` with the default emoji. -/
def prepare (w : World) (index : Nat) (thumb : String) : Except Error InputSticker :=
  match w.httpGet (index + 1) thumb with
  | .error err => .error err
  | .ok resp =>
    match resp.body with
    | .error err => .error err
    | .ok bytes =>
      match w.imageDecode bytes with
      | .error err => .error err
      | .ok img => .ok { sticker := w.scaleEncode img, emojiList := ["😀"] }

/-- Lines 118-139: the download loop from loop index `index` on, with the
stickers appended so far.  `dwmsg.EditText` on a nil handle is a nil-pointer
dereference. -/
def downloadLoop (w : World) (dwmsg : Option Message) (total : Nat) :
    Nat → List String → List InputSticker → List Effect × Except Outcome (List InputSticker)
  | _, [], stickers => ([], .ok stickers)
  | index, thumb :: rest, stickers =>
    match prepare w index thumb with
    | .error err => ([.httpGet thumb], .error (.returned (some err)))
    | .ok s =>
      match dwmsg with
      | none => ([.httpGet thumb], .error (.panicked .nilDereference))
      | some m =>
        let next := downloadLoop w dwmsg total (index + 1) rest (stickers ++ [s])
        (.httpGet thumb :: .editText m (downloadText (index + 1) total) :: next.1, next.2)

/-- Lines 163-168: the upload loop over `stickers[1:]` from loop index `index`
on; the results of `AddStickerToSet` and `EditText` are dropped. -/
def uploadLoop (w : World) (upmsg : Message) (owner : Int) (stickerSet : String)
    (total : Nat) : Nat → List InputSticker → List Effect
  | _, [] => []
  | index, sticker :: rest =>
    let _ := w.addStickerToSet index owner stickerSet sticker
    .addStickerToSet owner stickerSet sticker
      :: .editText upmsg (uploadText (index + 2) total)
      :: uploadLoop w upmsg owner stickerSet total (index + 1) rest

/-- Lines 141-176: announcing the upload, creating the set from `stickers[0]`,
adding the remaining stickers, and the completion message. -/
def publish (w : World) (b : Bot) (ctx : Context) (title : String) (total : Nat)
    (stickers : List InputSticker) : List Effect × Outcome :=
  let chat := ctx.effectiveChatId
  let owner := ctx.effectiveSenderId
  let upmsg := w.sendMessage 3 chat (uploadText 0 total)
  let announce : List Effect :=
    [.sendMessage chat (uploadAnnounceText total), .sendMessage chat (uploadText 0 total)]
  let stickerSet := stickerSetName w.now b.username
  match stickers with
  | [] => (announce, .panicked (.indexOutOfRange 0 0))
  | first :: rest =>
    let createErr := w.createNewStickerSet owner stickerSet title [first] "static"
    let created : List Effect :=
      announce ++ [.createNewStickerSet owner stickerSet title [first] "static"]
    match upmsg with
    | none => (created, .panicked .nilDereference)
    | some up =>
      let uploaded : List Effect :=
        created ++ .editText up (uploadText 1 total)
          :: uploadLoop w up owner stickerSet total 0 rest
      match createErr with
      | some err => (uploaded, .returned (some err))
      | none =>
        (uploaded ++ [.sendMessage chat (completionText title stickerSet)], .returned none)

/-- Lines 88-183: the handler `create`. -/
def create (w : World) (b : Bot) (ctx : Context) : List Effect × Outcome :=
  if accepted ctx then
    let chat := ctx.effectiveChatId
    let url := metadataUrl (ctx.args.getD 1 "")
    match fetchMeta w url with
    | .error err => ([.reply loadingNotice, .httpGet url], .returned (some err))
    | .ok emoticonMeta =>
      let title := emoticonMeta.result.title
      let thumbs := emoticonMeta.result.thumbnailUrls
      let dwmsg := w.sendMessage 1 chat (downloadText 0 thumbs.length)
      let begun : List Effect :=
        [.reply loadingNotice, .httpGet url, .sendMessage chat (announceText title),
          .sendMessage chat (downloadText 0 thumbs.length)]
      let loop := downloadLoop w dwmsg thumbs.length 0 thumbs []
      match loop.2 with
      | .error out => (begun ++ loop.1, out)
      | .ok stickers =>
        let rest := publish w b ctx title thumbs.length stickers
        (begun ++ loop.1 ++ rest.1, rest.2)
  else
    ([.reply invalidNotice], .returned none)

/-! ## Traces used to state the properties -/

/-- The effects every accepted run with decoded metadata starts with: the
loading reply, the metadata GET, the title announcement and the first
download-progress message `(0/N)`. -/
def begun (ctx : Context) (m : Meta) : List Effect :=
  [.reply loadingNotice, .httpGet (metadataUrl (ctx.args.getD 1 "")),
    .sendMessage ctx.effectiveChatId (announceText m.result.title),
    .sendMessage ctx.effectiveChatId (downloadText 0 m.result.thumbnailUrls.length)]

/-- Whether an effect is an in-place edit of a message. -/
def Effect.isEditText : Effect → Bool
  | .editText _ _ => true
  | _ => false

/-- Whether an effect is an HTTP GET. -/
def Effect.isHttpGet : Effect → Bool
  | .httpGet _ => true
  | _ => false

/-- The effects of the turns of the download loop that complete: for the
thumbnail of loop index `i`, its GET and the edit carrying `(i+1/total)`. -/
def downloadTrace (dw : Message) (total : Nat) (turns : List (Nat × String)) : List Effect :=
  turns.flatMap fun iu => [.httpGet iu.2, .editText dw (downloadText (iu.1 + 1) total)]

/-- The effects of the upload loop: for the sticker of loop index `i`, its
`AddStickerToSet` call and the edit carrying `(i+2/total)`. -/
def uploadTrace (up : Message) (owner : Int) (stickerSet : String) (total : Nat)
    (turns : List (Nat × InputSticker)) : List Effect :=
  turns.flatMap fun is =>
    [.addStickerToSet owner stickerSet is.2, .editText up (uploadText (is.1 + 2) total)]

/-- The set name a sticker-API call is made with, if the effect is one. -/
def Effect.stickerSetOf : Effect → Option String
  | .createNewStickerSet _ name _ _ _ => some name
  | .addStickerToSet _ name _ => some name
  | _ => none

/-- The world `w` with the status code of every HTTP response replaced:
`g n url status` is the new status code of the answer to the `n`-th GET. -/
def restatus (w : World) (g : Nat → String → Nat → Nat) : World :=
  { w with
    httpGet := fun n url =>
      match w.httpGet n url with
      | .error err => .error err
      | .ok resp => .ok { resp with statusCode := g n url resp.statusCode } }

/-- The world answers the GET of the thumbnail of loop index `iu.1` with a
response whose body can be read and decodes as an image, and `s` is the
sticker made of that image. -/
def PreparedFrom (w : World) (iu : Nat × String) (s : InputSticker) : Prop :=
  ∃ status bytes img,
    w.httpGet (iu.1 + 1) iu.2 = .ok ⟨status, .ok bytes⟩ ∧
    w.imageDecode bytes = .ok img ∧
    s = { sticker := w.scaleEncode img, emojiList := ["😀"] }

/-- The value of a decimal digit character. -/
def digitValue (c : Char) : Nat := c.toNat - 48

/-- The number a list of decimal digits stands for, most significant first. -/
def decimalValue : List Char → Nat
  | [] => 0
  | c :: cs => digitValue c * 10 ^ cs.length + decimalValue cs

/-! ## Concrete runs -/

/-- The metadata body of the scenario of the specification:
`{"result":{"title":"Foo","thumbnailUrls":["u1","u2"]}}`. -/
def fooBody : String :=
  "\x7b\"result\":\x7b\"title\":\"Foo\",\"thumbnailUrls\":[\"u1\",\"u2\"]\x7d\x7d"

/-- What `json.Unmarshal` makes of `fooBody`. -/
def fooMeta : Meta := ⟨⟨"Foo", ["u1", "u2"]⟩⟩

/-- The metadata body `{"result":{"title":"Empty","thumbnailUrls":[]}}`. -/
def emptyBody : String :=
  "\x7b\"result\":\x7b\"title\":\"Empty\",\"thumbnailUrls\":[]\x7d\x7d"

/-- What `json.Unmarshal` makes of `emptyBody`. -/
def emptyMeta : Meta := ⟨⟨"Empty", []⟩⟩

/-- A metadata body with a single thumbnail:
`{"result":{"title":"Solo","thumbnailUrls":["u1"]}}`. -/
def soloBody : String :=
  "\x7b\"result\":\x7b\"title\":\"Solo\",\"thumbnailUrls\":[\"u1\"]\x7d\x7d"

/-- What `json.Unmarshal` makes of `soloBody`. -/
def soloMeta : Meta := ⟨⟨"Solo", ["u1"]⟩⟩

/-- A metadata body with three thumbnails:
`{"result":{"title":"Trio","thumbnailUrls":["u1","u2","u3"]}}`. -/
def trioBody : String :=
  "\x7b\"result\":\x7b\"title\":\"Trio\",\"thumbnailUrls\":[\"u1\",\"u2\",\"u3\"]\x7d\x7d"

/-- What `json.Unmarshal` makes of `trioBody`. -/
def trioMeta : Meta := ⟨⟨"Trio", ["u1", "u2", "u3"]⟩⟩

/-- A world in which every call succeeds: the metadata request answers
`fooBody` with status 200, every thumbnail decodes, every message is sent. -/
def sampleWorld : World where
  httpGet := fun n url =>
    if n = 0 then .ok ⟨200, .ok fooBody⟩ else .ok ⟨200, .ok ("image:" ++ url)⟩
  jsonUnmarshal := fun body =>
    if body = fooBody then .ok fooMeta
    else if body = emptyBody then .ok emptyMeta
    else if body = soloBody then .ok soloMeta
    else if body = trioBody then .ok trioMeta
    else .error ⟨"invalid character"⟩
  imageDecode := fun bytes => .ok ⟨1, 1, bytes.data.map Char.toNat⟩
  scaleEncode := fun img => "png:" ++ String.mk (img.pixels.map Char.ofNat)
  sendMessage := fun n chat _ => some ⟨chat, n⟩
  now := 1700000000000000000
  createNewStickerSet := fun _ _ _ _ _ => none
  addStickerToSet := fun _ _ _ _ => none

/-- The two stickers prepared from `u1` and `u2` in `sampleWorld`. -/
def fooStickers : List InputSticker :=
  [⟨"png:image:u1", ["😀"]⟩, ⟨"png:image:u2", ["😀"]⟩]

/-- As `sampleWorld`, but the metadata request answers `fooBody` with status 500. -/
def status500World : World :=
  { sampleWorld with
    httpGet := fun n url =>
      if n = 0 then .ok ⟨500, .ok fooBody⟩ else .ok ⟨200, .ok ("image:" ++ url)⟩ }

/-- As `sampleWorld`, but the metadata request answers status 502 with an
HTML body, which is not JSON. -/
def badGatewayWorld : World :=
  { sampleWorld with
    httpGet := fun _ _ => .ok ⟨502, .ok "<html>502 Bad Gateway</html>"⟩ }

/-- As `sampleWorld`, but the metadata lists no thumbnail. -/
def emptyPackWorld : World :=
  { sampleWorld with httpGet := fun _ _ => .ok ⟨200, .ok emptyBody⟩ }

/-- As `sampleWorld`, but the metadata lists the single thumbnail `u1` and
sending the download-progress message fails. -/
def noDownloadMessageWorld : World :=
  { sampleWorld with
    httpGet := fun n url =>
      if n = 0 then .ok ⟨200, .ok soloBody⟩ else .ok ⟨200, .ok ("image:" ++ url)⟩
    sendMessage := fun n chat _ => if n = 1 then none else some ⟨chat, n⟩ }

/-- As `sampleWorld`, but sending the upload-progress message fails. -/
def noUploadMessageWorld : World :=
  { sampleWorld with sendMessage := fun n chat _ => if n = 3 then none else some ⟨chat, n⟩ }

/-- As `noUploadMessageWorld`, and creating the set fails as well. -/
def rejectedSetWorld : World :=
  { noUploadMessageWorld with
    createNewStickerSet := fun _ _ _ _ _ => some ⟨"STICKERSET_INVALID"⟩ }

/-- As `sampleWorld`, but the metadata lists `u1`, `u2`, `u3` and the GET of
the second thumbnail fails. -/
def brokenImageWorld : World :=
  { sampleWorld with
    httpGet := fun n url =>
      if n = 0 then .ok ⟨200, .ok trioBody⟩
      else if n = 2 then .error ⟨"connection reset"⟩
      else .ok ⟨200, .ok ("image:" ++ url)⟩ }

/-- As `brokenImageWorld`, and sending the download-progress message fails. -/
def brokenImageSilentWorld : World :=
  { brokenImageWorld with
    sendMessage := fun n chat _ => if n = 1 then none else some ⟨chat, n⟩ }

/-- As `sampleWorld`, one nanosecond later. -/
def laterWorld : World := { sampleWorld with now := 1700000000000000001 }

def sampleBot : Bot := ⟨"bot"⟩

def sampleCtx : Context := ⟨["/create", "https://e.kakao.com/t/abc123"], 7, 9⟩

def invalidCtx : Context := ⟨["/create", "notaurl"], 7, 9⟩

/-- A request whose argument is on another host and only contains the pack URL. -/
def foreignCtx : Context :=
  ⟨["/create", "http://evil.example/https://e.kakao.com/t/x"], 7, 9⟩

/-- A request whose token contains the pack-URL head once more. -/
def nestedCtx : Context :=
  ⟨["/create", "https://e.kakao.com/t/https://e.kakao.com/t/x"], 7, 9⟩

/-! ## Lemmas -/

theorem replaceAux_skip (old new : List Char) (pre cs : List Char) :
    replaceAux old new pre.length (pre ++ cs) = replaceAux old new 0 cs := by
  induction pre with
  | nil => rfl
  | cons p ps ih => simpa [replaceAux] using ih

theorem replaceAux_head (old new cs : List Char) (hne : old ≠ []) :
    replaceAux old new 0 (old ++ cs) = new ++ replaceAux old new 0 cs := by
  cases old with
  | nil => exact absurd rfl hne
  | cons o os =>
    have hpre : (o :: os).isPrefixOf (o :: (os ++ cs)) = true := by
      simp [List.isPrefixOf]
    have hskip := replaceAux_skip (o :: os) new os cs
    show replaceAux (o :: os) new 0 (o :: (os ++ cs)) = _
    rw [replaceAux, if_pos hpre]
    simpa using hskip

theorem replaceAux_no_occurrence (old new : List Char) :
    ∀ cs : List Char, ¬ old <:+: cs → replaceAux old new 0 cs = cs := by
  intro cs
  induction cs with
  | nil => intro _; rfl
  | cons c cs ih =>
    intro h
    have hpre : old.isPrefixOf (c :: cs) = false := by
      cases hp : old.isPrefixOf (c :: cs) with
      | false => rfl
      | true =>
        exact absurd (List.IsPrefix.isInfix (List.isPrefixOf_iff_prefix.mp hp)) h
    have htail : ¬ old <:+: cs := fun hi => h (hi.trans (List.suffix_cons c cs).isInfix)
    simp [replaceAux, hpre, ih htail]

theorem metadataUrl_of_clean_token (token : String)
    (h : ¬ packUrlHead.data <:+: token.data) :
    metadataUrl (packUrlHead ++ token) = apiUrlHead ++ token := by
  have hne : packUrlHead.data ≠ [] := by decide
  apply String.ext
  simp only [metadataUrl, ReplaceAll, String.data_append]
  rw [replaceAux_head _ _ _ hne, replaceAux_no_occurrence _ _ _ h]

theorem create_of_meta_error (w : World) (b : Bot) (ctx : Context) (err : Error)
    (hacc : accepted ctx = true)
    (hm : fetchMeta w (metadataUrl (ctx.args.getD 1 "")) = .error err) :
    create w b ctx =
      ([.reply loadingNotice, .httpGet (metadataUrl (ctx.args.getD 1 ""))],
        .returned (some err)) := by
  simp only [create, hacc, hm, if_true]

theorem create_of_loop_error (w : World) (b : Bot) (ctx : Context) (m : Meta)
    (tr : List Effect) (out : Outcome)
    (hacc : accepted ctx = true)
    (hm : fetchMeta w (metadataUrl (ctx.args.getD 1 "")) = .ok m)
    (hl : downloadLoop w
        (w.sendMessage 1 ctx.effectiveChatId (downloadText 0 m.result.thumbnailUrls.length))
        m.result.thumbnailUrls.length 0 m.result.thumbnailUrls [] = (tr, .error out)) :
    create w b ctx = (begun ctx m ++ tr, out) := by
  simp only [create, hacc, hm, hl, if_true, begun]

theorem create_of_loop_ok (w : World) (b : Bot) (ctx : Context) (m : Meta)
    (tr : List Effect) (stickers : List InputSticker)
    (hacc : accepted ctx = true)
    (hm : fetchMeta w (metadataUrl (ctx.args.getD 1 "")) = .ok m)
    (hl : downloadLoop w
        (w.sendMessage 1 ctx.effectiveChatId (downloadText 0 m.result.thumbnailUrls.length))
        m.result.thumbnailUrls.length 0 m.result.thumbnailUrls [] = (tr, .ok stickers)) :
    create w b ctx =
      (begun ctx m ++ tr
          ++ (publish w b ctx m.result.title m.result.thumbnailUrls.length stickers).1,
        (publish w b ctx m.result.title m.result.thumbnailUrls.length stickers).2) := by
  simp only [create, hacc, hm, hl, if_true, begun]

theorem create_accepted_head (w : World) (b : Bot) (ctx : Context)
    (hacc : accepted ctx = true) :
    ∃ rest, (create w b ctx).1
      = .reply loadingNotice :: .httpGet (metadataUrl (ctx.args.getD 1 "")) :: rest := by
  cases hm : fetchMeta w (metadataUrl (ctx.args.getD 1 "")) with
  | error err => exact ⟨[], by rw [create_of_meta_error w b ctx err hacc hm]⟩
  | ok m =>
    rcases hl : downloadLoop w
        (w.sendMessage 1 ctx.effectiveChatId (downloadText 0 m.result.thumbnailUrls.length))
        m.result.thumbnailUrls.length 0 m.result.thumbnailUrls [] with ⟨tr, r⟩
    cases r with
    | error out =>
      exact ⟨_, by rw [create_of_loop_error w b ctx m tr out hacc hm hl]; rfl⟩
    | ok stickers =>
      exact ⟨_, by rw [create_of_loop_ok w b ctx m tr stickers hacc hm hl]; rfl⟩

theorem downloadLoop_all_ok (w : World) (dw : Message) (total : Nat) :
    ∀ (thumbs : List String) (index : Nat) (acc stickers : List InputSticker),
      List.Forall₂ (fun iu s => prepare w iu.1 iu.2 = .ok s) (thumbs.enumFrom index) stickers →
      downloadLoop w (some dw) total index thumbs acc
        = (downloadTrace dw total (thumbs.enumFrom index), .ok (acc ++ stickers)) := by
  intro thumbs
  induction thumbs with
  | nil =>
    intro index acc stickers h
    cases h
    simp [downloadLoop, downloadTrace]
  | cons u us ih =>
    intro index acc stickers h
    rw [List.enumFrom_cons] at h
    cases h with
    | cons hhead htail =>
      rename_i s ss
      simp only at hhead
      have := ih (index + 1) (acc ++ [s]) ss htail
      simp [downloadLoop, hhead, this, downloadTrace, List.enumFrom_cons]

theorem downloadTrace_cons (dw : Message) (total : Nat) (iu : Nat × String)
    (turns : List (Nat × String)) :
    downloadTrace dw total (iu :: turns)
      = .httpGet iu.2 :: .editText dw (downloadText (iu.1 + 1) total)
          :: downloadTrace dw total turns := by
  simp [downloadTrace]

theorem downloadTrace_edits (dw : Message) (total : Nat) :
    ∀ (thumbs : List String) (index : Nat),
      (downloadTrace dw total (thumbs.enumFrom index)).filter Effect.isEditText
        = (List.range' index thumbs.length).map
            fun i => Effect.editText dw (downloadText (i + 1) total) := by
  intro thumbs
  induction thumbs with
  | nil => intro index; rfl
  | cons u us ih =>
    intro index
    rw [List.enumFrom_cons, downloadTrace_cons]
    simp [List.range', List.filter, Effect.isEditText, ih (index + 1)]

theorem downloadLoop_fails_at (w : World) (dw : Message) (total : Nat) (u : String)
    (post : List String) (err : Error) :
    ∀ (pre : List String) (index : Nat) (acc stickers : List InputSticker),
      List.Forall₂ (fun iu s => prepare w iu.1 iu.2 = .ok s) (pre.enumFrom index) stickers →
      prepare w (index + pre.length) u = .error err →
      downloadLoop w (some dw) total index (pre ++ u :: post) acc
        = (downloadTrace dw total (pre.enumFrom index) ++ [.httpGet u],
            .error (.returned (some err))) := by
  intro pre
  induction pre with
  | nil =>
    intro index acc stickers _ hfail
    simp only [List.length_nil, Nat.add_zero] at hfail
    simp [downloadLoop, hfail, downloadTrace]
  | cons p ps ih =>
    intro index acc stickers h hfail
    rw [List.enumFrom_cons] at h
    cases h with
    | cons hhead htail =>
      rename_i s ss
      simp only at hhead
      have hfail2 : prepare w (index + 1 + ps.length) u = .error err := by
        rw [← hfail]; congr 1; simp [List.length_cons]; omega
      have := ih (index + 1) (acc ++ [s]) ss htail hfail2
      simp [downloadLoop, hhead, this, List.enumFrom_cons, downloadTrace_cons]

theorem downloadLoop_fails_first (w : World) (dwmsg : Option Message) (total index : Nat)
    (u : String) (post : List String) (acc : List InputSticker) (err : Error)
    (hfail : prepare w index u = .error err) :
    downloadLoop w dwmsg total index (u :: post) acc
      = ([.httpGet u], .error (.returned (some err))) := by
  simp [downloadLoop, hfail]

theorem uploadLoop_trace (w : World) (up : Message) (owner : Int) (stickerSet : String)
    (total : Nat) :
    ∀ (rest : List InputSticker) (index : Nat),
      uploadLoop w up owner stickerSet total index rest
        = uploadTrace up owner stickerSet total (rest.enumFrom index) := by
  intro rest
  induction rest with
  | nil => intro index; rfl
  | cons s ss ih =>
    intro index
    simp [uploadLoop, uploadTrace, List.enumFrom_cons, ih (index + 1)]

theorem forall₂_length_enum (w : World) (thumbs : List String) (stickers : List InputSticker)
    (h : List.Forall₂ (fun iu s => prepare w iu.1 iu.2 = .ok s) thumbs.enum stickers) :
    stickers.length = thumbs.length := by
  have := h.length_eq
  simpa using this.symm

theorem publish_of_cons (w : World) (b : Bot) (ctx : Context) (title : String) (total : Nat)
    (first : InputSticker) (rest : List InputSticker) (up : Message)
    (hup : w.sendMessage 3 ctx.effectiveChatId (uploadText 0 total) = some up) :
    publish w b ctx title total (first :: rest)
      = ([.sendMessage ctx.effectiveChatId (uploadAnnounceText total),
            .sendMessage ctx.effectiveChatId (uploadText 0 total)]
          ++ (.createNewStickerSet ctx.effectiveSenderId (stickerSetName w.now b.username)
                title [first] "static"
              :: .editText up (uploadText 1 total)
              :: uploadTrace up ctx.effectiveSenderId (stickerSetName w.now b.username) total
                  rest.enum)
          ++ (match w.createNewStickerSet ctx.effectiveSenderId
                (stickerSetName w.now b.username) title [first] "static" with
              | none => [.sendMessage ctx.effectiveChatId
                  (completionText title (stickerSetName w.now b.username))]
              | some _ => []),
          .returned (w.createNewStickerSet ctx.effectiveSenderId
            (stickerSetName w.now b.username) title [first] "static")) := by
  simp only [publish, hup, uploadLoop_trace, List.enum]
  cases w.createNewStickerSet ctx.effectiveSenderId (stickerSetName w.now b.username)
    title [first] "static" <;> simp

theorem completionText_ne_announceText (title stickerSet : String) :
    completionText title stickerSet ≠ announceText title := by
  intro h
  have hd := congrArg String.data h
  simp only [announceText, completionText, String.data_append, List.append_assoc] at hd
  have h2 := (List.append_cancel_left (List.append_cancel_left hd)).symm
  have h3 := congrArg (List.take 6) h2
  simp at h3

theorem completionText_ne_downloadText (i n : Nat) (title stickerSet : String) :
    completionText title stickerSet ≠ downloadText i n := by
  intro h
  have hd := congrArg (fun s => s.data.head?) h
  revert hd
  simp [downloadText, completionText, String.data_append]

theorem completionText_ne_uploadText (i n : Nat) (title stickerSet : String) :
    completionText title stickerSet ≠ uploadText i n := by
  intro h
  have hd := congrArg (fun s => s.data.head?) h
  revert hd
  simp [uploadText, completionText, String.data_append]

theorem completionText_ne_uploadAnnounceText (n : Nat) (title stickerSet : String) :
    completionText title stickerSet ≠ uploadAnnounceText n := by
  intro h
  have hd := congrArg (fun s => s.data.head?) h
  revert hd
  simp [uploadAnnounceText, completionText, String.data_append]

theorem sendMessage_not_mem_downloadTrace (chat : Int) (text : String) (dw : Message)
    (total : Nat) (turns : List (Nat × String)) :
    Effect.sendMessage chat text ∉ downloadTrace dw total turns := by
  simp [downloadTrace, List.mem_flatMap]

theorem sendMessage_not_mem_uploadTrace (chat : Int) (text : String) (up : Message)
    (owner : Int) (stickerSet : String) (total : Nat) (turns : List (Nat × InputSticker)) :
    Effect.sendMessage chat text ∉ uploadTrace up owner stickerSet total turns := by
  simp [uploadTrace, List.mem_flatMap]

theorem uploadLoop_ignores_add_outcomes (w : World)
    (addOutcomes : Nat → Int → String → InputSticker → Option Error)
    (up : Message) (owner : Int) (stickerSet : String) (total : Nat) :
    ∀ (rest : List InputSticker) (index : Nat),
      uploadLoop { w with addStickerToSet := addOutcomes } up owner stickerSet total index rest
        = uploadLoop w up owner stickerSet total index rest := by
  intro rest index
  rw [uploadLoop_trace, uploadLoop_trace]

theorem downloadLoop_ignores_add_outcomes (w : World)
    (addOutcomes : Nat → Int → String → InputSticker → Option Error)
    (dwmsg : Option Message) (total : Nat) :
    ∀ (thumbs : List String) (index : Nat) (acc : List InputSticker),
      downloadLoop { w with addStickerToSet := addOutcomes } dwmsg total index thumbs acc
        = downloadLoop w dwmsg total index thumbs acc := by
  intro thumbs
  induction thumbs with
  | nil => intro index acc; rfl
  | cons u us ih =>
    intro index acc
    have hp : prepare { w with addStickerToSet := addOutcomes } index u = prepare w index u := rfl
    simp only [downloadLoop, hp, ih]

theorem create_ignores_add_outcomes (w : World)
    (addOutcomes : Nat → Int → String → InputSticker → Option Error)
    (b : Bot) (ctx : Context) :
    create { w with addStickerToSet := addOutcomes } b ctx = create w b ctx := by
  have hf : ∀ url, fetchMeta { w with addStickerToSet := addOutcomes } url = fetchMeta w url :=
    fun _ => rfl
  have hpub : ∀ title total stickers,
      publish { w with addStickerToSet := addOutcomes } b ctx title total stickers
        = publish w b ctx title total stickers := by
    intro title total stickers
    simp only [publish, uploadLoop_ignores_add_outcomes]
  simp only [create, hf, hpub, downloadLoop_ignores_add_outcomes]

theorem digitValue_digitChar (k : Nat) (hk : k < 10) : digitValue (Nat.digitChar k) = k := by
  interval_cases k <;> rfl

theorem digitChar_mem_digits (k : Nat) (hk : k < 10) :
    Nat.digitChar k ∈ "0123456789".data := by
  interval_cases k <;> decide

theorem decimalValue_toDigitsCore :
    ∀ (fuel n : Nat) (acc : List Char), n < fuel →
      decimalValue (Nat.toDigitsCore 10 fuel n acc) = n * 10 ^ acc.length + decimalValue acc := by
  intro fuel
  induction fuel with
  | zero => intro n acc h; omega
  | succ f ih =>
    intro n acc h
    have hmod : n % 10 < 10 := Nat.mod_lt _ (by decide)
    unfold Nat.toDigitsCore
    simp only
    split
    · rename_i hz
      have hn : n % 10 = n := by omega
      simp only [decimalValue, digitValue_digitChar _ hmod]
      rw [hn]
    · rename_i hz
      have hlt : n / 10 < f := by omega
      rw [ih (n / 10) _ hlt]
      simp only [decimalValue, digitValue_digitChar _ hmod, List.length_cons, pow_succ]
      have hsplit : n / 10 * (10 ^ acc.length * 10) + n % 10 * 10 ^ acc.length
          = (10 * (n / 10) + n % 10) * 10 ^ acc.length := by ring
      rw [← Nat.add_assoc, hsplit, Nat.div_add_mod]

theorem mem_toDigitsCore :
    ∀ (fuel n : Nat) (acc : List Char) (c : Char), c ∈ Nat.toDigitsCore 10 fuel n acc →
      c ∈ acc ∨ c ∈ "0123456789".data := by
  intro fuel
  induction fuel with
  | zero => intro n acc c h; exact Or.inl (by simpa [Nat.toDigitsCore] using h)
  | succ f ih =>
    intro n acc c h
    have hmod : n % 10 < 10 := Nat.mod_lt _ (by decide)
    unfold Nat.toDigitsCore at h
    simp only at h
    split at h
    · rcases List.mem_cons.mp h with h1 | h1
      · exact Or.inr (h1 ▸ digitChar_mem_digits _ hmod)
      · exact Or.inl h1
    · rcases ih _ _ _ h with h1 | h1
      · rcases List.mem_cons.mp h1 with h2 | h2
        · exact Or.inr (h2 ▸ digitChar_mem_digits _ hmod)
        · exact Or.inl h2
      · exact Or.inr h1

theorem natRepr_injective (a b : Nat) (h : (Nat.repr a).data = (Nat.repr b).data) : a = b := by
  have ha := decimalValue_toDigitsCore (a + 1) a [] (Nat.lt_succ_self a)
  have hb := decimalValue_toDigitsCore (b + 1) b [] (Nat.lt_succ_self b)
  simp only [Nat.repr, Nat.toDigits, List.asString] at h
  rw [h] at ha
  simp [decimalValue] at ha hb
  omega

theorem mem_natRepr (a : Nat) (c : Char) (h : c ∈ (Nat.repr a).data) :
    c ∈ "0123456789".data := by
  simp only [Nat.repr, Nat.toDigits, List.asString] at h
  rcases mem_toDigitsCore _ _ _ _ h with h1 | h1
  · cases h1
  · exact h1

theorem mem_intRepr (t : Int) (c : Char) (h : c ∈ (toString t).data) :
    c ∈ "-0123456789".data := by
  cases t with
  | ofNat a =>
    have : c ∈ (Nat.repr a).data := h
    exact List.mem_cons_of_mem _ (mem_natRepr a c this)
  | negSucc a =>
    have : c ∈ ("-" ++ Nat.repr (a + 1)).data := h
    rw [String.data_append] at this
    rcases List.mem_append.mp this with h1 | h1
    · have : c = '-' := by simpa using h1
      subst this; decide
    · exact List.mem_cons_of_mem _ (mem_natRepr _ c h1)

theorem intRepr_injective (s t : Int) (h : (toString s).data = (toString t).data) : s = t := by
  cases s with
  | ofNat a =>
    cases t with
    | ofNat b =>
      have : (Nat.repr a).data = (Nat.repr b).data := h
      rw [natRepr_injective a b this]
    | negSucc b =>
      have h2 : (Nat.repr a).data = ("-" ++ Nat.repr (b + 1)).data := h
      rw [String.data_append] at h2
      have hm : '-' ∈ (Nat.repr a).data := by rw [h2]; simp
      exact absurd (mem_natRepr a _ hm) (by decide)
  | negSucc a =>
    cases t with
    | ofNat b =>
      have h2 : ("-" ++ Nat.repr (a + 1)).data = (Nat.repr b).data := h
      rw [String.data_append] at h2
      have hm : '-' ∈ (Nat.repr b).data := by rw [← h2]; simp
      exact absurd (mem_natRepr b _ hm) (by decide)
    | negSucc b =>
      have h2 : ("-" ++ Nat.repr (a + 1)).data = ("-" ++ Nat.repr (b + 1)).data := h
      rw [String.data_append, String.data_append] at h2
      have := natRepr_injective _ _ (List.append_cancel_left h2)
      have hab : a = b := by omega
      rw [hab]

theorem append_separator_injective (sep : Char) :
    ∀ (l1 l2 t1 t2 : List Char), sep ∉ l1 → sep ∉ l2 →
      l1 ++ sep :: t1 = l2 ++ sep :: t2 → l1 = l2 ∧ t1 = t2 := by
  intro l1
  induction l1 with
  | nil =>
    intro l2 t1 t2 _ h2 h
    cases l2 with
    | nil => exact ⟨rfl, by simpa using h⟩
    | cons x xs =>
      simp only [List.nil_append, List.cons_append, List.cons.injEq] at h
      exact absurd (h.1 ▸ List.mem_cons_self _ _) h2
  | cons y ys ih =>
    intro l2 t1 t2 h1 h2 h
    cases l2 with
    | nil =>
      simp only [List.nil_append, List.cons_append, List.cons.injEq] at h
      exact absurd (h.1 ▸ List.mem_cons_self _ _) h1
    | cons x xs =>
      simp only [List.cons_append, List.cons.injEq] at h
      have := ih xs t1 t2 (fun hm => h1 (List.mem_cons_of_mem _ hm))
        (fun hm => h2 (List.mem_cons_of_mem _ hm)) h.2
      exact ⟨by rw [h.1, this.1], this.2⟩

theorem stickerSetName_ne (t1 t2 : Int) (u1 u2 : String) (h : t1 ≠ t2 ∨ u1 ≠ u2) :
    stickerSetName t1 u1 ≠ stickerSetName t2 u2 := by
  intro heq
  have hd := congrArg String.data heq
  simp only [stickerSetName, String.data_append, List.append_assoc] at hd
  have hd2 := List.append_cancel_left hd
  have hsep : ∀ t : Int, '_' ∉ (toString t).data := fun t hm =>
    absurd (mem_intRepr t _ hm) (by decide)
  have hd3 : (toString t1).data ++ '_' :: ("by_".data ++ u1.data)
      = (toString t2).data ++ '_' :: ("by_".data ++ u2.data) := hd2
  have := append_separator_injective '_' _ _ _ _ (hsep t1) (hsep t2) hd3
  have ht : t1 = t2 := intRepr_injective t1 t2 this.1
  have hu : u1 = u2 := String.ext (List.append_cancel_left this.2)
  rcases h with h | h
  · exact h ht
  · exact h hu

theorem stickerSetOf_downloadLoop (w : World) (dwmsg : Option Message) (total : Nat) :
    ∀ (thumbs : List String) (index : Nat) (acc : List InputSticker) (e : Effect),
      e ∈ (downloadLoop w dwmsg total index thumbs acc).1 → e.stickerSetOf = none := by
  intro thumbs
  induction thumbs with
  | nil => intro index acc e h; simp [downloadLoop] at h
  | cons u us ih =>
    intro index acc e h
    unfold downloadLoop at h
    cases hp : prepare w index u with
    | error err =>
      simp only [hp, List.mem_singleton] at h
      subst h; rfl
    | ok s =>
      cases dwmsg with
      | none =>
        simp only [hp, List.mem_singleton] at h
        subst h; rfl
      | some m =>
        simp only [hp, List.mem_cons] at h
        rcases h with h | h | h
        · subst h; rfl
        · subst h; rfl
        · exact ih _ _ e h

theorem stickerSetOf_uploadLoop (w : World) (up : Message) (owner : Int) (stickerSet : String)
    (total : Nat) :
    ∀ (rest : List InputSticker) (index : Nat) (e : Effect) (n : String),
      e ∈ uploadLoop w up owner stickerSet total index rest → e.stickerSetOf = some n →
      n = stickerSet := by
  intro rest
  induction rest with
  | nil => intro index e n h; simp [uploadLoop] at h
  | cons s ss ih =>
    intro index e n h hn
    simp only [uploadLoop, List.mem_cons] at h
    rcases h with h | h | h
    · subst h
      simpa [Effect.stickerSetOf] using hn.symm
    · subst h
      simp [Effect.stickerSetOf] at hn
    · exact ih _ e n h hn

theorem stickerSetOf_publish (w : World) (b : Bot) (ctx : Context) (title : String)
    (total : Nat) (stickers : List InputSticker) (e : Effect) (n : String)
    (h : e ∈ (publish w b ctx title total stickers).1) (hn : e.stickerSetOf = some n) :
    n = stickerSetName w.now b.username := by
  have hup : ∀ up rest, e ∈ uploadLoop w up ctx.effectiveSenderId
      (stickerSetName w.now b.username) total 0 rest → n = stickerSetName w.now b.username :=
    fun up rest hm => stickerSetOf_uploadLoop w up _ _ total rest 0 e n hm hn
  unfold publish at h
  cases stickers with
  | nil =>
    simp only [List.mem_cons, List.mem_singleton, List.not_mem_nil, or_false] at h
    rcases h with h | h <;> (subst h; simp [Effect.stickerSetOf] at hn)
  | cons first rest =>
    simp only at h
    cases hu : w.sendMessage 3 ctx.effectiveChatId (uploadText 0 total) with
    | none =>
      simp only [hu, List.mem_append, List.mem_cons, List.mem_singleton, List.not_mem_nil,
        or_false] at h
      rcases h with (h | h) | h
      · subst h; simp [Effect.stickerSetOf] at hn
      · subst h; simp [Effect.stickerSetOf] at hn
      · subst h; simpa [Effect.stickerSetOf] using hn.symm
    | some up =>
      simp only [hu] at h
      cases hc : w.createNewStickerSet ctx.effectiveSenderId (stickerSetName w.now b.username)
          title [first] "static" with
      | some err =>
        simp only [hc, List.mem_append, List.mem_cons, List.mem_singleton, List.not_mem_nil,
          or_false] at h
        rcases h with ((h | h) | h) | h | h
        · subst h; simp [Effect.stickerSetOf] at hn
        · subst h; simp [Effect.stickerSetOf] at hn
        · subst h; simpa [Effect.stickerSetOf] using hn.symm
        · subst h; simp [Effect.stickerSetOf] at hn
        · exact hup up rest h
      | none =>
        simp only [hc, List.mem_append, List.mem_cons, List.mem_singleton, List.not_mem_nil,
          or_false] at h
        rcases h with (((h | h) | h) | h | h) | h
        · subst h; simp [Effect.stickerSetOf] at hn
        · subst h; simp [Effect.stickerSetOf] at hn
        · subst h; simpa [Effect.stickerSetOf] using hn.symm
        · subst h; simp [Effect.stickerSetOf] at hn
        · exact hup up rest h
        · subst h; simp [Effect.stickerSetOf] at hn

theorem stickerSetOf_create (w : World) (b : Bot) (ctx : Context) (e : Effect) (n : String)
    (h : e ∈ (create w b ctx).1) (hn : e.stickerSetOf = some n) :
    n = stickerSetName w.now b.username := by
  have hbegun : ∀ m, e ∉ begun ctx m := by
    intro m hm
    simp only [begun, List.mem_cons, List.mem_singleton, List.not_mem_nil, or_false] at hm
    rcases hm with hm | hm | hm | hm <;> (subst hm; simp [Effect.stickerSetOf] at hn)
  have hloop : ∀ dwmsg total index thumbs acc,
      e ∉ (downloadLoop w dwmsg total index thumbs acc).1 := by
    intro dwmsg total index thumbs acc hm
    have := stickerSetOf_downloadLoop w dwmsg total thumbs index acc e hm
    rw [this] at hn
    cases hn
  cases hacc : accepted ctx with
  | false =>
    simp only [create, hacc, Bool.false_eq_true, if_false, List.mem_singleton] at h
    subst h; simp [Effect.stickerSetOf] at hn
  | true =>
    cases hm : fetchMeta w (metadataUrl (ctx.args.getD 1 "")) with
    | error err =>
      rw [create_of_meta_error w b ctx err hacc hm] at h
      simp only [List.mem_cons, List.mem_singleton, List.not_mem_nil, or_false] at h
      rcases h with h | h <;> (subst h; simp [Effect.stickerSetOf] at hn)
    | ok m =>
      rcases hl : downloadLoop w
          (w.sendMessage 1 ctx.effectiveChatId (downloadText 0 m.result.thumbnailUrls.length))
          m.result.thumbnailUrls.length 0 m.result.thumbnailUrls [] with ⟨tr, r⟩
      have htr : e ∉ tr := by
        have := hloop (w.sendMessage 1 ctx.effectiveChatId
          (downloadText 0 m.result.thumbnailUrls.length)) m.result.thumbnailUrls.length 0
          m.result.thumbnailUrls []
        rw [hl] at this
        exact this
      cases r with
      | error out =>
        rw [create_of_loop_error w b ctx m tr out hacc hm hl] at h
        rcases List.mem_append.mp h with h | h
        · exact absurd h (hbegun m)
        · exact absurd h htr
      | ok stickers =>
        rw [create_of_loop_ok w b ctx m tr stickers hacc hm hl] at h
        rcases List.mem_append.mp h with h | h
        · rcases List.mem_append.mp h with h | h
          · exact absurd h (hbegun m)
          · exact absurd h htr
        · exact stickerSetOf_publish w b ctx _ _ stickers e n h hn

theorem fetchMeta_restatus (w : World) (g : Nat → String → Nat → Nat) (url : String) :
    fetchMeta (restatus w g) url = fetchMeta w url := by
  cases h : w.httpGet 0 url <;> simp only [fetchMeta, restatus, h]

theorem prepare_restatus (w : World) (g : Nat → String → Nat → Nat) (index : Nat)
    (thumb : String) :
    prepare (restatus w g) index thumb = prepare w index thumb := by
  cases h : w.httpGet (index + 1) thumb <;> simp only [prepare, restatus, h]

theorem downloadLoop_restatus (w : World) (g : Nat → String → Nat → Nat)
    (dwmsg : Option Message) (total : Nat) :
    ∀ (thumbs : List String) (index : Nat) (acc : List InputSticker),
      downloadLoop (restatus w g) dwmsg total index thumbs acc
        = downloadLoop w dwmsg total index thumbs acc := by
  intro thumbs
  induction thumbs with
  | nil => intro index acc; rfl
  | cons u us ih =>
    intro index acc
    simp only [downloadLoop, prepare_restatus, ih]

theorem create_restatus (w : World) (g : Nat → String → Nat → Nat) (b : Bot) (ctx : Context) :
    create (restatus w g) b ctx = create w b ctx := by
  have hup : ∀ up owner name total index rest,
      uploadLoop (restatus w g) up owner name total index rest
        = uploadLoop w up owner name total index rest := by
    intro up owner name total index rest
    rw [uploadLoop_trace, uploadLoop_trace]
  have hpub : ∀ title total stickers,
      publish (restatus w g) b ctx title total stickers
        = publish w b ctx title total stickers := by
    intro title total stickers
    have hs : (restatus w g).sendMessage = w.sendMessage := rfl
    have hn : (restatus w g).now = w.now := rfl
    have hc : (restatus w g).createNewStickerSet = w.createNewStickerSet := rfl
    simp only [publish, hup, hs, hn, hc]
  have hs : (restatus w g).sendMessage = w.sendMessage := rfl
  simp only [create, fetchMeta_restatus, hpub, downloadLoop_restatus, hs]

theorem forall₂_prepare_of_preparedFrom (w : World) :
    ∀ (turns : List (Nat × String)) (stickers : List InputSticker),
      List.Forall₂ (PreparedFrom w) turns stickers →
      List.Forall₂ (fun iu s => prepare w iu.1 iu.2 = .ok s) turns stickers := by
  intro turns stickers h
  refine List.Forall₂.imp ?_ h
  rintro iu s ⟨status, bytes, img, hget, hdec, hs⟩
  simp only [prepare, hget, hdec, hs]

/-! ## The claims -/

/-- C1: a request whose argument list is not the command plus exactly one
argument, or whose argument does not match the pattern, makes `create` issue
exactly one effect, the reply with the invalid-URL notice (hence no HTTP GET
and no sticker-API call), and return nil.  The answers of the world play no
part, so every repetition of the same input gives the same outcome. -/
theorem create_invalid_request (w : World) (b : Bot) (ctx : Context)
    (h : ctx.args.length ≠ 2 ∨ MatchString urlRegex (ctx.args.getD 1 "") = false) :
    create w b ctx = ([.reply "유효한 이모티콘 URL이 아닙니다."], .returned none) ∧
      ∀ w2 : World, create w2 b ctx = create w b ctx := by
  have hacc : accepted ctx = false := by
    rcases h with h | h
    · simp [accepted, h]
    · unfold accepted
      rw [h, Bool.and_false]
  simp [create, hacc, invalidNotice]

/-- Witness of C1 at `/create notaurl`. -/
theorem create_invalid_request_witness :
    (invalidCtx.args.length ≠ 2 ∨ MatchString urlRegex (invalidCtx.args.getD 1 "") = false) ∧
      (create sampleWorld sampleBot invalidCtx
          = ([.reply "유효한 이모티콘 URL이 아닙니다."], .returned none) ∧
        ∀ w2 : World, create w2 sampleBot invalidCtx = create sampleWorld sampleBot invalidCtx) :=
  ⟨Or.inr (by decide),
    create_invalid_request sampleWorld sampleBot invalidCtx (Or.inr (by decide))⟩

/-- C2: the validation of line 90 accepts arguments that are not of the form
`https://e.kakao.com/t/<token>`.  The search is not anchored, so the argument
`http://evil.example/https://e.kakao.com/t/x` is accepted although it does not
begin with the pack-URL head, and the URL then fetched is on the host
`evil.example`; the dots of the pattern are wildcards, so
`https://eXkakao.com/t/x` is accepted as well. -/
theorem urlRegex_accepts_foreign_host :
    MatchString urlRegex "http://evil.example/https://e.kakao.com/t/x" = true ∧
      (¬ ∃ token : String,
        "http://evil.example/https://e.kakao.com/t/x" = "https://e.kakao.com/t/" ++ token) ∧
      accepted foreignCtx = true ∧
      (∀ (w : World) (b : Bot), ∃ rest, (create w b foreignCtx).1
        = .reply "이모티콘 정보를 불러오는 중입니다."
          :: .httpGet "http://evil.example/https://e.kakao.com/api/v1/items/t/x" :: rest) ∧
      MatchString urlRegex "https://eXkakao.com/t/x" = true ∧
      metadataUrl "https://eXkakao.com/t/x" = "https://eXkakao.com/t/x" := by
  refine ⟨by decide, ?_, by decide, ?_, by decide, by decide⟩
  · rintro ⟨token, h⟩
    have hd := congrArg (fun s => s.data.take 5) h
    simp [String.data_append] at hd
  · intro w b
    have hurl : metadataUrl (foreignCtx.args.getD 1 "")
        = "http://evil.example/https://e.kakao.com/api/v1/items/t/x" := by decide
    have := create_accepted_head w b foreignCtx (by decide)
    rw [hurl] at this
    exact this

/-- Counterexample to C3: the metadata request is answered with status 500 and
the body of the scenario; the run does not abort, it goes through the whole
pipeline and returns nil. -/
theorem create_status_500_runs :
    status500World.httpGet 0 (metadataUrl "https://e.kakao.com/t/abc123")
        = .ok ⟨500, .ok fooBody⟩ ∧
      create status500World sampleBot sampleCtx =
        ([.reply "이모티콘 정보를 불러오는 중입니다.",
          .httpGet "https://e.kakao.com/api/v1/items/t/abc123",
          .sendMessage 7 "<b>Foo</b> 이모티콘을 다운로드 합니다.",
          .sendMessage 7 "다운로드 중... <b>(0/2)</b>",
          .httpGet "u1",
          .editText ⟨7, 1⟩ "다운로드 중... <b>(1/2)</b>",
          .httpGet "u2",
          .editText ⟨7, 1⟩ "다운로드 중... <b>(2/2)</b>",
          .sendMessage 7 "총 <b>2</b> 개의 이모티콘을 텔레그램 서버로 업로드합니다.",
          .sendMessage 7 "업로드 중... <b>(0/2)</b>",
          .createNewStickerSet 9 "t1700000000000000000_by_bot" "Foo"
            [⟨"png:image:u1", ["😀"]⟩] "static",
          .editText ⟨7, 3⟩ "업로드 중... <b>(1/2)</b>",
          .addStickerToSet 9 "t1700000000000000000_by_bot" ⟨"png:image:u2", ["😀"]⟩,
          .editText ⟨7, 3⟩ "업로드 중... <b>(2/2)</b>",
          .sendMessage 7
            "<b>Foo</b> 스티커 생성이 완료되었습니다!\nhttps://t.me/addstickers/t1700000000000000000_by_bot"],
          .returned none) :=
  ⟨rfl, by decide⟩

/-- C3 (amended): the HTTP status of a response is never examined: replacing
the status codes of the responses of a run changes nothing in it.  Whatever
the status of the metadata response, when `http.Get` returns an error, reading
the body fails, or `json.Unmarshal` returns an error for the body, `create`
returns that error right after the loading reply and the metadata GET: no title
announcement, no download-progress message, no image GET and no sticker-API
call.  When `json.Unmarshal` accepts the body, the run goes on to the title
announcement and the download-progress message, whatever the status. -/
theorem create_metadata_failure (w : World) (b : Bot) (ctx : Context) :
    (∀ g : Nat → String → Nat → Nat, create (restatus w g) b ctx = create w b ctx) ∧
      (∀ err : Error, accepted ctx = true →
        (w.httpGet 0 (metadataUrl (ctx.args.getD 1 "")) = .error err ∨
          (∃ status, w.httpGet 0 (metadataUrl (ctx.args.getD 1 ""))
            = .ok ⟨status, .error err⟩) ∨
          (∃ status body, w.httpGet 0 (metadataUrl (ctx.args.getD 1 ""))
              = .ok ⟨status, .ok body⟩ ∧
            w.jsonUnmarshal body = .error err)) →
        create w b ctx =
          ([.reply "이모티콘 정보를 불러오는 중입니다.",
            .httpGet (metadataUrl (ctx.args.getD 1 ""))],
            .returned (some err))) ∧
      (∀ (status : Nat) (body : String) (m : Meta), accepted ctx = true →
        w.httpGet 0 (metadataUrl (ctx.args.getD 1 "")) = .ok ⟨status, .ok body⟩ →
        w.jsonUnmarshal body = .ok m →
        ∃ rest, (create w b ctx).1
          = [.reply "이모티콘 정보를 불러오는 중입니다.",
              .httpGet (metadataUrl (ctx.args.getD 1 "")),
              .sendMessage ctx.effectiveChatId (announceText m.result.title),
              .sendMessage ctx.effectiveChatId
                (downloadText 0 m.result.thumbnailUrls.length)] ++ rest) := by
  refine ⟨fun g => create_restatus w g b ctx, ?_, ?_⟩
  · intro err hacc hfail
    have hm : fetchMeta w (metadataUrl (ctx.args.getD 1 "")) = .error err := by
      unfold fetchMeta
      rcases hfail with h | ⟨s, h⟩ | ⟨s, body, h, hj⟩
      · rw [h]
      · rw [h]
      · rw [h]; exact hj
    exact create_of_meta_error w b ctx err hacc hm
  · intro status body m hacc hget hjson
    have hm : fetchMeta w (metadataUrl (ctx.args.getD 1 "")) = .ok m := by
      unfold fetchMeta
      rw [hget]; exact hjson
    rcases hl : downloadLoop w
        (w.sendMessage 1 ctx.effectiveChatId (downloadText 0 m.result.thumbnailUrls.length))
        m.result.thumbnailUrls.length 0 m.result.thumbnailUrls [] with ⟨tr, r⟩
    cases r with
    | error out =>
      exact ⟨tr, by rw [create_of_loop_error w b ctx m tr out hacc hm hl]; rfl⟩
    | ok stickers =>
      exact ⟨_, by
        rw [create_of_loop_ok w b ctx m tr stickers hacc hm hl, List.append_assoc]; rfl⟩

/-- Witness of C3 (amended): status 502 with an HTML body, on which
`json.Unmarshal` reports an error; and the statuses of `sampleWorld` all
replaced by 404. -/
theorem create_metadata_failure_witness :
    accepted sampleCtx = true ∧
      (∃ status body,
        badGatewayWorld.httpGet 0 (metadataUrl (sampleCtx.args.getD 1 ""))
          = .ok ⟨status, .ok body⟩ ∧
        badGatewayWorld.jsonUnmarshal body = .error ⟨"invalid character"⟩) ∧
      create badGatewayWorld sampleBot sampleCtx =
        ([.reply "이모티콘 정보를 불러오는 중입니다.",
          .httpGet (metadataUrl (sampleCtx.args.getD 1 ""))],
          .returned (some ⟨"invalid character"⟩)) ∧
      create (restatus sampleWorld (fun _ _ _ => 404)) sampleBot sampleCtx
        = create sampleWorld sampleBot sampleCtx ∧
      (restatus sampleWorld (fun _ _ _ => 404)).httpGet 0
          (metadataUrl (sampleCtx.args.getD 1 "")) = .ok ⟨404, .ok fooBody⟩ :=
  ⟨by decide, ⟨502, "<html>502 Bad Gateway</html>", rfl, rfl⟩,
    (create_metadata_failure badGatewayWorld sampleBot sampleCtx).2.1 ⟨"invalid character"⟩
      (by decide) (Or.inr (Or.inr ⟨502, "<html>502 Bad Gateway</html>", rfl, rfl⟩)),
    (create_metadata_failure sampleWorld sampleBot sampleCtx).1 (fun _ _ _ => 404),
    rfl⟩

/-- C7: when the metadata decodes with an empty `thumbnailUrls`, `create`
sends the title announcement, the download counter `(0/0)`, the upload
announcement and the upload counter `(0/0)`, and then panics with an
index-out-of-range error at `stickers[0]`; no `CreateNewStickerSet` call, no
`AddStickerToSet` call and no completion message is issued. -/
theorem create_empty_thumbnails (w : World) (b : Bot) (ctx : Context) (m : Meta)
    (hacc : accepted ctx = true)
    (hmeta : fetchMeta w (metadataUrl (ctx.args.getD 1 "")) = .ok m)
    (hempty : m.result.thumbnailUrls = []) :
    create w b ctx =
      ([.reply loadingNotice, .httpGet (metadataUrl (ctx.args.getD 1 "")),
        .sendMessage ctx.effectiveChatId (announceText m.result.title),
        .sendMessage ctx.effectiveChatId (downloadText 0 0),
        .sendMessage ctx.effectiveChatId (uploadAnnounceText 0),
        .sendMessage ctx.effectiveChatId (uploadText 0 0)],
        .panicked (.indexOutOfRange 0 0)) := by
  have hl : downloadLoop w
        (w.sendMessage 1 ctx.effectiveChatId (downloadText 0 m.result.thumbnailUrls.length))
        m.result.thumbnailUrls.length 0 m.result.thumbnailUrls [] = ([], .ok []) := by
    rw [hempty]; rfl
  rw [create_of_loop_ok w b ctx m [] [] hacc hmeta hl]
  simp [begun, publish, hempty]

/-- Witness of C7: a pack whose metadata lists no thumbnail. -/
theorem create_empty_thumbnails_witness :
    accepted sampleCtx = true ∧
      fetchMeta emptyPackWorld (metadataUrl (sampleCtx.args.getD 1 "")) = .ok emptyMeta ∧
      emptyMeta.result.thumbnailUrls = [] ∧
      create emptyPackWorld sampleBot sampleCtx =
        ([.reply loadingNotice, .httpGet (metadataUrl (sampleCtx.args.getD 1 "")),
          .sendMessage sampleCtx.effectiveChatId (announceText emptyMeta.result.title),
          .sendMessage sampleCtx.effectiveChatId (downloadText 0 0),
          .sendMessage sampleCtx.effectiveChatId (uploadAnnounceText 0),
          .sendMessage sampleCtx.effectiveChatId (uploadText 0 0)],
          .panicked (.indexOutOfRange 0 0)) :=
  ⟨by decide, rfl, rfl,
    create_empty_thumbnails emptyPackWorld sampleBot sampleCtx emptyMeta (by decide) rfl rfl⟩

/-- Counterexample to C4: the request is accepted, the metadata lists one
thumbnail, which is fetched and decoded, but sending the download-progress
message had failed, so its handle is nil: the `dwmsg.EditText` of line 136
panics, the loop ends without a sticker list and the edit `(1/1)` is never
issued. -/
theorem download_edits_need_message :
    accepted sampleCtx = true ∧
      fetchMeta noDownloadMessageWorld (metadataUrl (sampleCtx.args.getD 1 "")) = .ok soloMeta ∧
      prepare noDownloadMessageWorld 0 "u1" = .ok ⟨"png:image:u1", ["😀"]⟩ ∧
      noDownloadMessageWorld.sendMessage 1 7 "다운로드 중... <b>(0/1)</b>" = none ∧
      downloadLoop noDownloadMessageWorld none 1 0 ["u1"] []
        = ([.httpGet "u1"], .error (.panicked .nilDereference)) ∧
      create noDownloadMessageWorld sampleBot sampleCtx =
        ([.reply "이모티콘 정보를 불러오는 중입니다.",
          .httpGet "https://e.kakao.com/api/v1/items/t/abc123",
          .sendMessage 7 "<b>Solo</b> 이모티콘을 다운로드 합니다.",
          .sendMessage 7 "다운로드 중... <b>(0/1)</b>",
          .httpGet "u1"],
          .panicked .nilDereference) :=
  ⟨by decide, rfl, rfl, rfl, rfl, by decide⟩

/-- C4 (amended): for an accepted request whose metadata lists N thumbnails,
all fetched and decoded successfully, and whose download-progress message was
sent (the handle `dwmsg` is not nil), the download loop yields exactly the N
prepared stickers, in order, and its effects are, for i = 1..N, the GET of the
i-th thumbnail followed by the edit carrying `(i/N)`; so exactly N edits are
issued, the i-th with counter i.  These effects follow the first four effects of
the run. -/
theorem download_progress_counter (w : World) (b : Bot) (ctx : Context) (m : Meta)
    (dw : Message) (stickers : List InputSticker)
    (hacc : accepted ctx = true)
    (hmeta : fetchMeta w (metadataUrl (ctx.args.getD 1 "")) = .ok m)
    (hdw : w.sendMessage 1 ctx.effectiveChatId
      (downloadText 0 m.result.thumbnailUrls.length) = some dw)
    (hprep : List.Forall₂ (fun iu s => prepare w iu.1 iu.2 = .ok s)
      m.result.thumbnailUrls.enum stickers) :
    downloadLoop w (some dw) m.result.thumbnailUrls.length 0 m.result.thumbnailUrls []
        = (downloadTrace dw m.result.thumbnailUrls.length m.result.thumbnailUrls.enum,
            .ok stickers) ∧
      stickers.length = m.result.thumbnailUrls.length ∧
      (downloadTrace dw m.result.thumbnailUrls.length m.result.thumbnailUrls.enum).filter
          Effect.isEditText
        = (List.range m.result.thumbnailUrls.length).map
            (fun i => Effect.editText dw (downloadText (i + 1) m.result.thumbnailUrls.length)) ∧
      ∃ rest, (create w b ctx).1
        = begun ctx m
            ++ downloadTrace dw m.result.thumbnailUrls.length m.result.thumbnailUrls.enum
            ++ rest := by
  have hl := downloadLoop_all_ok w dw m.result.thumbnailUrls.length m.result.thumbnailUrls 0 []
    stickers hprep
  rw [List.nil_append] at hl
  refine ⟨hl, forall₂_length_enum w _ _ hprep, ?_, ?_⟩
  · rw [List.range_eq_range']
    exact downloadTrace_edits dw _ m.result.thumbnailUrls 0
  · rw [← hdw] at hl
    exact ⟨_, by rw [create_of_loop_ok w b ctx m _ stickers hacc hmeta hl]; rfl⟩

/-- Witness of C4 (amended): the scenario with two thumbnails. -/
theorem download_progress_counter_witness :
    (downloadTrace ⟨7, 1⟩ 2 [(0, "u1"), (1, "u2")]).filter Effect.isEditText
        = [.editText ⟨7, 1⟩ "다운로드 중... <b>(1/2)</b>",
            .editText ⟨7, 1⟩ "다운로드 중... <b>(2/2)</b>"] ∧
      (downloadLoop sampleWorld (some ⟨7, 1⟩) fooMeta.result.thumbnailUrls.length 0
            fooMeta.result.thumbnailUrls []
          = (downloadTrace ⟨7, 1⟩ fooMeta.result.thumbnailUrls.length
              fooMeta.result.thumbnailUrls.enum, .ok fooStickers) ∧
        fooStickers.length = fooMeta.result.thumbnailUrls.length ∧
        (downloadTrace ⟨7, 1⟩ fooMeta.result.thumbnailUrls.length
              fooMeta.result.thumbnailUrls.enum).filter Effect.isEditText
          = (List.range fooMeta.result.thumbnailUrls.length).map
              (fun i => Effect.editText ⟨7, 1⟩
                (downloadText (i + 1) fooMeta.result.thumbnailUrls.length)) ∧
        ∃ rest, (create sampleWorld sampleBot sampleCtx).1
          = begun sampleCtx fooMeta
              ++ downloadTrace ⟨7, 1⟩ fooMeta.result.thumbnailUrls.length
                  fooMeta.result.thumbnailUrls.enum
              ++ rest) :=
  ⟨by decide,
    download_progress_counter sampleWorld sampleBot sampleCtx fooMeta ⟨7, 1⟩ fooStickers
      (by decide) rfl rfl (List.Forall₂.cons rfl (List.Forall₂.cons rfl List.Forall₂.nil))⟩

/-- Counterexample to C5: both thumbnails are prepared and the set is created,
but sending the upload-progress message failed, so its handle is nil: the
`upmsg.EditText` of line 159 panics right after `CreateNewStickerSet`; there is
no upload-progress edit and no `AddStickerToSet` call for the second image. -/
theorem publishing_needs_message :
    accepted sampleCtx = true ∧
      fetchMeta noUploadMessageWorld (metadataUrl (sampleCtx.args.getD 1 "")) = .ok fooMeta ∧
      List.Forall₂ (fun iu s => prepare noUploadMessageWorld iu.1 iu.2 = .ok s)
        fooMeta.result.thumbnailUrls.enum fooStickers ∧
      create noUploadMessageWorld sampleBot sampleCtx =
        ([.reply "이모티콘 정보를 불러오는 중입니다.",
          .httpGet "https://e.kakao.com/api/v1/items/t/abc123",
          .sendMessage 7 "<b>Foo</b> 이모티콘을 다운로드 합니다.",
          .sendMessage 7 "다운로드 중... <b>(0/2)</b>",
          .httpGet "u1",
          .editText ⟨7, 1⟩ "다운로드 중... <b>(1/2)</b>",
          .httpGet "u2",
          .editText ⟨7, 1⟩ "다운로드 중... <b>(2/2)</b>",
          .sendMessage 7 "총 <b>2</b> 개의 이모티콘을 텔레그램 서버로 업로드합니다.",
          .sendMessage 7 "업로드 중... <b>(0/2)</b>",
          .createNewStickerSet 9 "t1700000000000000000_by_bot" "Foo"
            [⟨"png:image:u1", ["😀"]⟩] "static"],
          .panicked .nilDereference) :=
  ⟨by decide, rfl, List.Forall₂.cons rfl (List.Forall₂.cons rfl List.Forall₂.nil), by decide⟩

/-- C5 (amended): for an accepted request with N >= 1 thumbnails that are all
prepared successfully and whose two progress messages were sent (the handles
`dwmsg` and `upmsg` are not nil), and for every outcome of the sticker-API
calls, the effects after the upload announcement and the message `(0/N)` are
exactly: one `CreateNewStickerSet` call seeded with the sticker prepared from
the first thumbnail, the edit `(1/N)`, then for i = 2..N in thumbnail order one
`AddStickerToSet` call with the sticker prepared from the i-th thumbnail and the
edit `(i/N)`; every call uses the same generated set name and the sender id as
owner, the pack title is the title of the set, and the only effect that may
follow is the completion message. -/
theorem publishing_effects (w : World) (b : Bot) (ctx : Context) (m : Meta)
    (dw up : Message) (first : InputSticker) (rest : List InputSticker)
    (hacc : accepted ctx = true)
    (hmeta : fetchMeta w (metadataUrl (ctx.args.getD 1 "")) = .ok m)
    (hdw : w.sendMessage 1 ctx.effectiveChatId
      (downloadText 0 m.result.thumbnailUrls.length) = some dw)
    (hup : w.sendMessage 3 ctx.effectiveChatId
      (uploadText 0 m.result.thumbnailUrls.length) = some up)
    (hprep : List.Forall₂ (fun iu s => prepare w iu.1 iu.2 = .ok s)
      m.result.thumbnailUrls.enum (first :: rest)) :
    (create w b ctx).1
      = begun ctx m
        ++ downloadTrace dw m.result.thumbnailUrls.length m.result.thumbnailUrls.enum
        ++ [.sendMessage ctx.effectiveChatId (uploadAnnounceText m.result.thumbnailUrls.length),
            .sendMessage ctx.effectiveChatId (uploadText 0 m.result.thumbnailUrls.length)]
        ++ (.createNewStickerSet ctx.effectiveSenderId (stickerSetName w.now b.username)
              m.result.title [first] "static"
            :: .editText up (uploadText 1 m.result.thumbnailUrls.length)
            :: uploadTrace up ctx.effectiveSenderId (stickerSetName w.now b.username)
                m.result.thumbnailUrls.length rest.enum)
        ++ (match w.createNewStickerSet ctx.effectiveSenderId
              (stickerSetName w.now b.username) m.result.title [first] "static" with
            | none => [.sendMessage ctx.effectiveChatId
                (completionText m.result.title (stickerSetName w.now b.username))]
            | some _ => []) := by
  have hl := downloadLoop_all_ok w dw m.result.thumbnailUrls.length m.result.thumbnailUrls 0 []
    (first :: rest) hprep
  rw [List.nil_append, ← hdw] at hl
  rw [create_of_loop_ok w b ctx m _ _ hacc hmeta hl,
    publish_of_cons w b ctx m.result.title _ first rest up hup]
  simp only [List.append_assoc, List.enum]

/-- Witness of C5 (amended): the scenario with two thumbnails. -/
theorem publishing_effects_witness :
    (create sampleWorld sampleBot sampleCtx).1
      = begun sampleCtx fooMeta
        ++ downloadTrace ⟨7, 1⟩ fooMeta.result.thumbnailUrls.length
            fooMeta.result.thumbnailUrls.enum
        ++ [.sendMessage sampleCtx.effectiveChatId
              (uploadAnnounceText fooMeta.result.thumbnailUrls.length),
            .sendMessage sampleCtx.effectiveChatId
              (uploadText 0 fooMeta.result.thumbnailUrls.length)]
        ++ (.createNewStickerSet sampleCtx.effectiveSenderId
              (stickerSetName sampleWorld.now sampleBot.username)
              fooMeta.result.title [⟨"png:image:u1", ["😀"]⟩] "static"
            :: .editText ⟨7, 3⟩ (uploadText 1 fooMeta.result.thumbnailUrls.length)
            :: uploadTrace ⟨7, 3⟩ sampleCtx.effectiveSenderId
                (stickerSetName sampleWorld.now sampleBot.username)
                fooMeta.result.thumbnailUrls.length
                [(⟨"png:image:u2", ["😀"]⟩ : InputSticker)].enum)
        ++ (match sampleWorld.createNewStickerSet sampleCtx.effectiveSenderId
              (stickerSetName sampleWorld.now sampleBot.username) fooMeta.result.title
              [⟨"png:image:u1", ["😀"]⟩] "static" with
            | none => [.sendMessage sampleCtx.effectiveChatId
                (completionText fooMeta.result.title
                  (stickerSetName sampleWorld.now sampleBot.username))]
            | some _ => []) :=
  publishing_effects sampleWorld sampleBot sampleCtx fooMeta ⟨7, 1⟩ ⟨7, 3⟩
    ⟨"png:image:u1", ["😀"]⟩ [⟨"png:image:u2", ["😀"]⟩] (by decide) rfl rfl rfl
    (List.Forall₂.cons rfl (List.Forall₂.cons rfl List.Forall₂.nil))

/-- Counterexample to C6: both thumbnails are prepared, `CreateNewStickerSet`
fails, and sending the upload-progress message had failed: the run does not
return the create-set error, it panics at the `upmsg.EditText` of line 159. -/
theorem create_set_error_lost_without_message :
    accepted sampleCtx = true ∧
      fetchMeta rejectedSetWorld (metadataUrl (sampleCtx.args.getD 1 "")) = .ok fooMeta ∧
      List.Forall₂ (fun iu s => prepare rejectedSetWorld iu.1 iu.2 = .ok s)
        fooMeta.result.thumbnailUrls.enum fooStickers ∧
      rejectedSetWorld.createNewStickerSet 9 "t1700000000000000000_by_bot" "Foo"
        [⟨"png:image:u1", ["😀"]⟩] "static" = some ⟨"STICKERSET_INVALID"⟩ ∧
      (create rejectedSetWorld sampleBot sampleCtx).2 = .panicked .nilDereference ∧
      (create rejectedSetWorld sampleBot sampleCtx).2
        ≠ .returned (some ⟨"STICKERSET_INVALID"⟩) :=
  ⟨by decide, rfl, List.Forall₂.cons rfl (List.Forall₂.cons rfl List.Forall₂.nil), rfl,
    by decide, by decide⟩

/-- C6 (amended): for an accepted request with N >= 1 successfully prepared
images whose two progress messages were sent (the handles `dwmsg` and `upmsg`
are not nil), `create` returns exactly the result of the `CreateNewStickerSet`
call, the error when it failed and nil when it succeeded, whatever the outcomes
of the `AddStickerToSet` calls; the completion message, with the pack title and
the link `https://t.me/addstickers/<set name>`, is the last effect of the run
when the set was created, and is not sent at all when it was not. -/
theorem create_result_is_create_set_result (w : World) (b : Bot) (ctx : Context) (m : Meta)
    (dw up : Message) (first : InputSticker) (rest : List InputSticker)
    (hacc : accepted ctx = true)
    (hmeta : fetchMeta w (metadataUrl (ctx.args.getD 1 "")) = .ok m)
    (hdw : w.sendMessage 1 ctx.effectiveChatId
      (downloadText 0 m.result.thumbnailUrls.length) = some dw)
    (hup : w.sendMessage 3 ctx.effectiveChatId
      (uploadText 0 m.result.thumbnailUrls.length) = some up)
    (hprep : List.Forall₂ (fun iu s => prepare w iu.1 iu.2 = .ok s)
      m.result.thumbnailUrls.enum (first :: rest)) :
    (create w b ctx).2
        = .returned (w.createNewStickerSet ctx.effectiveSenderId
            (stickerSetName w.now b.username) m.result.title [first] "static") ∧
      (∀ addOutcomes, create { w with addStickerToSet := addOutcomes } b ctx = create w b ctx) ∧
      (w.createNewStickerSet ctx.effectiveSenderId (stickerSetName w.now b.username)
          m.result.title [first] "static" = none →
        ∃ core, (create w b ctx).1
            = core ++ [.sendMessage ctx.effectiveChatId
                ("<b>" ++ m.result.title ++ "</b> 스티커 생성이 완료되었습니다!\nhttps://t.me/addstickers/"
                  ++ stickerSetName w.now b.username)] ∧
          Effect.sendMessage ctx.effectiveChatId
            (completionText m.result.title (stickerSetName w.now b.username)) ∉ core) ∧
      (w.createNewStickerSet ctx.effectiveSenderId (stickerSetName w.now b.username)
          m.result.title [first] "static" ≠ none →
        Effect.sendMessage ctx.effectiveChatId
          (completionText m.result.title (stickerSetName w.now b.username))
            ∉ (create w b ctx).1) := by
  have hl := downloadLoop_all_ok w dw m.result.thumbnailUrls.length m.result.thumbnailUrls 0 []
    (first :: rest) hprep
  rw [List.nil_append, ← hdw] at hl
  have hc := create_of_loop_ok w b ctx m _ _ hacc hmeta hl
  rw [publish_of_cons w b ctx m.result.title _ first rest up hup] at hc
  have hcore : Effect.sendMessage ctx.effectiveChatId
      (completionText m.result.title (stickerSetName w.now b.username)) ∉
      begun ctx m
        ++ downloadTrace dw m.result.thumbnailUrls.length (List.enumFrom 0 m.result.thumbnailUrls)
        ++ ([.sendMessage ctx.effectiveChatId (uploadAnnounceText m.result.thumbnailUrls.length),
            .sendMessage ctx.effectiveChatId (uploadText 0 m.result.thumbnailUrls.length)]
          ++ (.createNewStickerSet ctx.effectiveSenderId (stickerSetName w.now b.username)
              m.result.title [first] "static"
            :: .editText up (uploadText 1 m.result.thumbnailUrls.length)
            :: uploadTrace up ctx.effectiveSenderId (stickerSetName w.now b.username)
                m.result.thumbnailUrls.length rest.enum)) := by
    simp [begun, completionText_ne_announceText, completionText_ne_downloadText,
      completionText_ne_uploadAnnounceText, completionText_ne_uploadText,
      sendMessage_not_mem_downloadTrace, sendMessage_not_mem_uploadTrace]
  refine ⟨by rw [hc], fun f => create_ignores_add_outcomes w f b ctx, ?_, ?_⟩
  · intro hnone
    rw [hnone] at hc
    exact ⟨_, by rw [hc]; simp only [List.append_assoc]; rfl, hcore⟩
  · intro hsome
    rw [hc]
    cases hce : w.createNewStickerSet ctx.effectiveSenderId (stickerSetName w.now b.username)
      m.result.title [first] "static" with
    | none => exact absurd hce hsome
    | some e => simpa using hcore

/-- Witness of C6 (amended): the scenario with two thumbnails. -/
theorem create_result_is_create_set_result_witness :
    (create sampleWorld sampleBot sampleCtx).2 = .returned none ∧
      ((create sampleWorld sampleBot sampleCtx).2
          = .returned (sampleWorld.createNewStickerSet sampleCtx.effectiveSenderId
              (stickerSetName sampleWorld.now sampleBot.username) fooMeta.result.title
              [⟨"png:image:u1", ["😀"]⟩] "static") ∧
        (∀ addOutcomes, create { sampleWorld with addStickerToSet := addOutcomes }
            sampleBot sampleCtx = create sampleWorld sampleBot sampleCtx) ∧
        (sampleWorld.createNewStickerSet sampleCtx.effectiveSenderId
            (stickerSetName sampleWorld.now sampleBot.username) fooMeta.result.title
            [⟨"png:image:u1", ["😀"]⟩] "static" = none →
          ∃ core, (create sampleWorld sampleBot sampleCtx).1
              = core ++ [.sendMessage sampleCtx.effectiveChatId
                  ("<b>" ++ fooMeta.result.title
                    ++ "</b> 스티커 생성이 완료되었습니다!\nhttps://t.me/addstickers/"
                    ++ stickerSetName sampleWorld.now sampleBot.username)] ∧
            Effect.sendMessage sampleCtx.effectiveChatId
              (completionText fooMeta.result.title
                (stickerSetName sampleWorld.now sampleBot.username)) ∉ core) ∧
        (sampleWorld.createNewStickerSet sampleCtx.effectiveSenderId
            (stickerSetName sampleWorld.now sampleBot.username) fooMeta.result.title
            [⟨"png:image:u1", ["😀"]⟩] "static" ≠ none →
          Effect.sendMessage sampleCtx.effectiveChatId
            (completionText fooMeta.result.title
              (stickerSetName sampleWorld.now sampleBot.username))
              ∉ (create sampleWorld sampleBot sampleCtx).1)) :=
  ⟨by decide,
    create_result_is_create_set_result sampleWorld sampleBot sampleCtx fooMeta ⟨7, 1⟩ ⟨7, 3⟩
      ⟨"png:image:u1", ["😀"]⟩ [⟨"png:image:u2", ["😀"]⟩] (by decide) rfl rfl rfl
      (List.Forall₂.cons rfl (List.Forall₂.cons rfl List.Forall₂.nil))⟩

/-- C8: every sticker-API call that a run of `create` issues is made with the
set name `t`, followed by the decimal rendering of the nanosecond reading of
that run, `_by_` and the username of the bot; so for every two calls of the
handler whose time readings differ, or whose bot usernames differ, the
generated set names differ. -/
theorem generated_set_name_unique (w1 w2 : World) (b1 b2 : Bot) (ctx1 ctx2 : Context)
    (e1 e2 : Effect) (n1 n2 : String)
    (h1 : e1 ∈ (create w1 b1 ctx1).1) (hn1 : e1.stickerSetOf = some n1)
    (h2 : e2 ∈ (create w2 b2 ctx2).1) (hn2 : e2.stickerSetOf = some n2) :
    n1 = "t" ++ toString w1.now ++ "_by_" ++ b1.username ∧
      n2 = "t" ++ toString w2.now ++ "_by_" ++ b2.username ∧
      (w1.now ≠ w2.now ∨ b1.username ≠ b2.username → n1 ≠ n2) := by
  have e1n := stickerSetOf_create w1 b1 ctx1 e1 n1 h1 hn1
  have e2n := stickerSetOf_create w2 b2 ctx2 e2 n2 h2 hn2
  refine ⟨e1n, e2n, ?_⟩
  intro hne
  rw [e1n, e2n]
  exact stickerSetName_ne _ _ _ _ hne

/-- Witness of C8: the create-set calls of two runs one nanosecond apart. -/
theorem generated_set_name_unique_witness :
    Effect.createNewStickerSet 9 "t1700000000000000000_by_bot" "Foo"
        [⟨"png:image:u1", ["😀"]⟩] "static" ∈ (create sampleWorld sampleBot sampleCtx).1 ∧
      Effect.createNewStickerSet 9 "t1700000000000000001_by_bot" "Foo"
        [⟨"png:image:u1", ["😀"]⟩] "static" ∈ (create laterWorld sampleBot sampleCtx).1 ∧
      ("t1700000000000000000_by_bot"
          = "t" ++ toString sampleWorld.now ++ "_by_" ++ sampleBot.username ∧
        "t1700000000000000001_by_bot"
          = "t" ++ toString laterWorld.now ++ "_by_" ++ sampleBot.username ∧
        (sampleWorld.now ≠ laterWorld.now ∨ sampleBot.username ≠ sampleBot.username →
          "t1700000000000000000_by_bot" ≠ "t1700000000000000001_by_bot")) :=
  ⟨by decide, by decide,
    generated_set_name_unique sampleWorld laterWorld sampleBot sampleBot sampleCtx sampleCtx
      (.createNewStickerSet 9 "t1700000000000000000_by_bot" "Foo"
        [⟨"png:image:u1", ["😀"]⟩] "static")
      (.createNewStickerSet 9 "t1700000000000000001_by_bot" "Foo"
        [⟨"png:image:u1", ["😀"]⟩] "static")
      "t1700000000000000000_by_bot" "t1700000000000000001_by_bot"
      (by decide) rfl (by decide) rfl⟩

/-- Counterexample to C9: the token `https://e.kakao.com/t/x` contains the
pack-URL head once more; the argument is accepted, and the rewriting replaces
both occurrences, so the token is not carried over unchanged. -/
theorem metadataUrl_rewrites_token :
    accepted nestedCtx = true ∧
      metadataUrl ("https://e.kakao.com/t/" ++ "https://e.kakao.com/t/x")
        ≠ "https://e.kakao.com/api/v1/items/t/" ++ "https://e.kakao.com/t/x" ∧
      metadataUrl ("https://e.kakao.com/t/" ++ "https://e.kakao.com/t/x")
        = "https://e.kakao.com/api/v1/items/t/https://e.kakao.com/api/v1/items/t/x" := by
  decide

/-- C9 (amended): the metadata URL is the pack URL with every occurrence of
`https://e.kakao.com/t/` replaced by `https://e.kakao.com/api/v1/items/t/`.
For every token that does not contain `https://e.kakao.com/t/`, the argument
`https://e.kakao.com/t/` followed by the token is rewritten to exactly
`https://e.kakao.com/api/v1/items/t/` followed by the token, and when the
request is accepted that URL is the one fetched, right after the loading
reply. -/
theorem metadataUrl_rewrites_head (token : String)
    (hclean : ¬ "https://e.kakao.com/t/".data <:+: token.data) :
    metadataUrl ("https://e.kakao.com/t/" ++ token)
        = "https://e.kakao.com/api/v1/items/t/" ++ token ∧
      ∀ (w : World) (b : Bot) (cmd : String) (chat sender : Int),
        accepted ⟨[cmd, "https://e.kakao.com/t/" ++ token], chat, sender⟩ = true →
        ∃ rest, (create w b ⟨[cmd, "https://e.kakao.com/t/" ++ token], chat, sender⟩).1
          = .reply "이모티콘 정보를 불러오는 중입니다."
            :: .httpGet ("https://e.kakao.com/api/v1/items/t/" ++ token) :: rest := by
  have hurl := metadataUrl_of_clean_token token hclean
  refine ⟨hurl, ?_⟩
  intro w b cmd chat sender hacc
  have := create_accepted_head w b ⟨[cmd, "https://e.kakao.com/t/" ++ token], chat, sender⟩ hacc
  have harg : (⟨[cmd, "https://e.kakao.com/t/" ++ token], chat, sender⟩ : Context).args.getD 1 ""
      = packUrlHead ++ token := rfl
  rw [harg, hurl] at this
  exact this

/-- Witness of C9 (amended): the token `abc123`. -/
theorem metadataUrl_rewrites_head_witness :
    (¬ "https://e.kakao.com/t/".data <:+: "abc123".data) ∧
      accepted ⟨["/create", "https://e.kakao.com/t/" ++ "abc123"], 7, 9⟩ = true ∧
      metadataUrl ("https://e.kakao.com/t/" ++ "abc123")
        = "https://e.kakao.com/api/v1/items/t/" ++ "abc123" ∧
      ∃ rest, (create sampleWorld sampleBot
          ⟨["/create", "https://e.kakao.com/t/" ++ "abc123"], 7, 9⟩).1
        = .reply "이모티콘 정보를 불러오는 중입니다."
          :: .httpGet ("https://e.kakao.com/api/v1/items/t/" ++ "abc123") :: rest :=
  ⟨by decide, by decide,
    (metadataUrl_rewrites_head "abc123" (by decide)).1,
    (metadataUrl_rewrites_head "abc123" (by decide)).2 sampleWorld sampleBot "/create" 7 9
      (by decide)⟩

/-- Counterexample to C10: of three thumbnails the world answers the GET of
the first with an image that decodes and fails the GET of the second, and
sending the download-progress message had failed: the run panics at the first
`dwmsg.EditText`; it does not return the error of the failed GET and the edit
`(1/3)` is not issued. -/
theorem failed_image_error_needs_message :
    accepted sampleCtx = true ∧
      fetchMeta brokenImageSilentWorld (metadataUrl (sampleCtx.args.getD 1 "")) = .ok trioMeta ∧
      brokenImageSilentWorld.httpGet 1 "u1" = .ok ⟨200, .ok "image:u1"⟩ ∧
      brokenImageSilentWorld.imageDecode "image:u1"
        = .ok ⟨1, 1, "image:u1".data.map Char.toNat⟩ ∧
      brokenImageSilentWorld.httpGet 2 "u2" = .error ⟨"connection reset"⟩ ∧
      brokenImageSilentWorld.sendMessage 1 7 "다운로드 중... <b>(0/3)</b>" = none ∧
      create brokenImageSilentWorld sampleBot sampleCtx =
        ([.reply "이모티콘 정보를 불러오는 중입니다.",
          .httpGet "https://e.kakao.com/api/v1/items/t/abc123",
          .sendMessage 7 "<b>Trio</b> 이모티콘을 다운로드 합니다.",
          .sendMessage 7 "다운로드 중... <b>(0/3)</b>",
          .httpGet "u1"],
          .panicked .nilDereference) :=
  ⟨by decide, rfl, rfl, rfl, rfl, rfl, by decide⟩

/-- C10 (amended): for an accepted request with N thumbnails for which the
world answers the GETs of the first k-1 with images that decode and fails the
GET, the body read or the decoding of the k-th (1 <= k <= N), and whose
download-progress message was sent when k >= 2 (the handle `dwmsg` is not
nil), `create` returns that error at once: after the first four effects of the
run come, for i = 1..k-1, the GET of the i-th thumbnail and the edit `(i/N)`,
then the GET of the k-th thumbnail, and nothing else: no later thumbnail is
fetched, the failed one is not fetched again, and there is no upload
announcement, no `CreateNewStickerSet`, no `AddStickerToSet` and no completion
message. -/
theorem create_aborts_at_failed_image (w : World) (b : Bot) (ctx : Context) (m : Meta)
    (dw : Message) (pre post : List String) (u : String) (stickers : List InputSticker)
    (err : Error)
    (hacc : accepted ctx = true)
    (hmeta : fetchMeta w (metadataUrl (ctx.args.getD 1 "")) = .ok m)
    (hthumbs : m.result.thumbnailUrls = pre ++ u :: post)
    (hdw : pre = [] ∨ w.sendMessage 1 ctx.effectiveChatId
      (downloadText 0 m.result.thumbnailUrls.length) = some dw)
    (hprep : List.Forall₂ (PreparedFrom w) pre.enum stickers)
    (hfail : w.httpGet (pre.length + 1) u = .error err ∨
      (∃ status, w.httpGet (pre.length + 1) u = .ok ⟨status, .error err⟩) ∨
      (∃ status bytes, w.httpGet (pre.length + 1) u = .ok ⟨status, .ok bytes⟩ ∧
        w.imageDecode bytes = .error err)) :
    create w b ctx
      = (begun ctx m ++ downloadTrace dw m.result.thumbnailUrls.length pre.enum
            ++ [.httpGet u],
          .returned (some err)) := by
  have hfailp : prepare w pre.length u = .error err := by
    unfold prepare
    rcases hfail with h | ⟨s, h⟩ | ⟨s, bytes, h, hd⟩
    · rw [h]
    · rw [h]
    · rw [h]; simp only [hd]
  have hprep2 := forall₂_prepare_of_preparedFrom w _ _ hprep
  have hl : downloadLoop w
      (w.sendMessage 1 ctx.effectiveChatId (downloadText 0 m.result.thumbnailUrls.length))
      m.result.thumbnailUrls.length 0 m.result.thumbnailUrls []
      = (downloadTrace dw m.result.thumbnailUrls.length pre.enum ++ [.httpGet u],
          .error (.returned (some err))) := by
    cases pre with
    | nil =>
      rw [hthumbs]
      simpa [downloadTrace] using
        downloadLoop_fails_first w _ (([] : List String) ++ u :: post).length 0 u post [] err
          hfailp
    | cons p ps =>
      have hsend : w.sendMessage 1 ctx.effectiveChatId
          (downloadText 0 m.result.thumbnailUrls.length) = some dw := by
        rcases hdw with h | h
        · cases h
        · exact h
      rw [hsend]
      have hfail2 : prepare w (0 + (p :: ps).length) u = .error err := by
        rw [Nat.zero_add]; exact hfailp
      have := downloadLoop_fails_at w dw m.result.thumbnailUrls.length u post err (p :: ps) 0 []
        stickers hprep2 hfail2
      rw [hthumbs]
      rw [hthumbs] at this
      exact this
  rw [create_of_loop_error w b ctx m _ _ hacc hmeta hl, List.append_assoc]

/-- Witness of C10 (amended): of three thumbnails the second cannot be
fetched; the third is never requested. -/
theorem create_aborts_at_failed_image_witness :
    create brokenImageWorld sampleBot sampleCtx =
        ([.reply "이모티콘 정보를 불러오는 중입니다.",
          .httpGet "https://e.kakao.com/api/v1/items/t/abc123",
          .sendMessage 7 "<b>Trio</b> 이모티콘을 다운로드 합니다.",
          .sendMessage 7 "다운로드 중... <b>(0/3)</b>",
          .httpGet "u1",
          .editText ⟨7, 1⟩ "다운로드 중... <b>(1/3)</b>",
          .httpGet "u2"],
          .returned (some ⟨"connection reset"⟩)) ∧
      create brokenImageWorld sampleBot sampleCtx
        = (begun sampleCtx trioMeta
            ++ downloadTrace ⟨7, 1⟩ trioMeta.result.thumbnailUrls.length ["u1"].enum
            ++ [.httpGet "u2"],
          .returned (some ⟨"connection reset"⟩)) :=
  ⟨by decide,
    create_aborts_at_failed_image brokenImageWorld sampleBot sampleCtx trioMeta ⟨7, 1⟩
      ["u1"] ["u3"] "u2" [⟨"png:image:u1", ["😀"]⟩] ⟨"connection reset"⟩ (by decide) rfl rfl
      (Or.inr rfl)
      (List.Forall₂.cons ⟨200, "image:u1", _, rfl, rfl, rfl⟩ List.Forall₂.nil)
      (Or.inl rfl)⟩

end KakaoStickerBot
